import Mathlib

/-!
Verification of the in-memory address-book bot (`bot_helper.py`).

The Python source is shallowly embedded below:
* `Phone`/`Birthday` validation (`bot_helper.py:16-30`) become fallible
  constructors returning `Except String String`;
* `Record` and `AddressBook` (`bot_helper.py:32-79`) become structures over
  lists; the Python `dict` is modelled as an association list with in-place
  key update (`dictInsert`) and first-match lookup (`lookup`), which matches
  `dict` semantics when keys are unique (an invariant the proofs track);
* `get_birthdays_per_week` (`bot_helper.py:81-118`) is parameterised by the
  ambient `today` date; the `defaultdict(list)` of weekday buckets is
  represented as the list of (weekday-name, contact-name) pairs in iteration
  order — "name is in bucket w" corresponds to membership of the pair `(w, name)`;
* the mutating `Bot` handlers (`bot_helper.py:128-155`) become state
  transformers on `AddressBook`; an uncaught `ValueError`/`IndexError`
  terminates the Python process with the book unchanged, which is modelled
  as returning the book unchanged;
* dates are (year, month, day) triples with Python's proleptic-Gregorian
  ordinal (`date.toordinal`, ordinal 1 = 0001-01-01, a Monday) and
  `weekday()` (Monday = 0); `(d1 - d2).days` is the ordinal difference;
* `datetime.strptime(value, "%d.%m.%Y")` is modelled after CPython's
  `_strptime`: the string must decompose as day `.` month `.` year where
  day matches `3[0-1]|[1-2]\d|0[1-9]|[1-9]| [1-9]`, month matches
  `1[0-2]|0[1-9]|[1-9]`, year matches `\d\d\d\d`; matched groups are
  converted by `int()` and the `datetime` constructor then requires
  `1 ≤ year ≤ 9999` and the day to exist in the month. The bracket classes
  in these patterns are ASCII ranges, while `\d` matches any character of
  Unicode category `Nd` (decimal digit of any script), so e.g.
  `"01.01.٢٠٢٤"` parses while `"٣.05.2024"` does not; the `Nd` runs and
  Python's `str.isdigit()` code points (which additionally cover
  Numeric_Type=Digit characters such as `'²'`) are embedded below as
  interval tables generated from CPython 3.11 / Unicode 14.
-/

namespace BotHelper

/-- Code points on which Python `str.isdigit()` is true (characters with
Numeric_Type Decimal or Digit), as inclusive intervals; generated from
CPython 3.11 (Unicode 14). Besides the decimal digits of every script this
covers non-decimal digit characters such as superscripts (`'²'` = 0xB2). -/
def pyDigitIntervals : List (Nat × Nat) := [
  (0x30, 0x39), (0xB2, 0xB3), (0xB9, 0xB9), (0x660, 0x669),
  (0x6F0, 0x6F9), (0x7C0, 0x7C9), (0x966, 0x96F), (0x9E6, 0x9EF),
  (0xA66, 0xA6F), (0xAE6, 0xAEF), (0xB66, 0xB6F), (0xBE6, 0xBEF),
  (0xC66, 0xC6F), (0xCE6, 0xCEF), (0xD66, 0xD6F), (0xDE6, 0xDEF),
  (0xE50, 0xE59), (0xED0, 0xED9), (0xF20, 0xF29), (0x1040, 0x1049),
  (0x1090, 0x1099), (0x1369, 0x1371), (0x17E0, 0x17E9), (0x1810, 0x1819),
  (0x1946, 0x194F), (0x19D0, 0x19DA), (0x1A80, 0x1A89), (0x1A90, 0x1A99),
  (0x1B50, 0x1B59), (0x1BB0, 0x1BB9), (0x1C40, 0x1C49), (0x1C50, 0x1C59),
  (0x2070, 0x2070), (0x2074, 0x2079), (0x2080, 0x2089), (0x2460, 0x2468),
  (0x2474, 0x247C), (0x2488, 0x2490), (0x24EA, 0x24EA), (0x24F5, 0x24FD),
  (0x24FF, 0x24FF), (0x2776, 0x277E), (0x2780, 0x2788), (0x278A, 0x2792),
  (0xA620, 0xA629), (0xA8D0, 0xA8D9), (0xA900, 0xA909), (0xA9D0, 0xA9D9),
  (0xA9F0, 0xA9F9), (0xAA50, 0xAA59), (0xABF0, 0xABF9), (0xFF10, 0xFF19),
  (0x104A0, 0x104A9), (0x10A40, 0x10A43), (0x10D30, 0x10D39), (0x10E60, 0x10E68),
  (0x11052, 0x1105A), (0x11066, 0x1106F), (0x110F0, 0x110F9), (0x11136, 0x1113F),
  (0x111D0, 0x111D9), (0x112F0, 0x112F9), (0x11450, 0x11459), (0x114D0, 0x114D9),
  (0x11650, 0x11659), (0x116C0, 0x116C9), (0x11730, 0x11739), (0x118E0, 0x118E9),
  (0x11950, 0x11959), (0x11C50, 0x11C59), (0x11D50, 0x11D59), (0x11DA0, 0x11DA9),
  (0x16A60, 0x16A69), (0x16AC0, 0x16AC9), (0x16B50, 0x16B59), (0x1D7CE, 0x1D7FF),
  (0x1E140, 0x1E149), (0x1E2F0, 0x1E2F9), (0x1E950, 0x1E959), (0x1F100, 0x1F10A),
  (0x1FBF0, 0x1FBF9)
]

/-- Python's per-character `isdigit()` test. -/
def pyDigitChar (c : Char) : Bool :=
  pyDigitIntervals.any fun r => decide (r.1 ≤ c.toNat ∧ c.toNat ≤ r.2)

/-- Python `value.isdigit()` on the character list of a string: true iff the
string is non-empty and `isdigit()` holds of every character. -/
def pyIsDigit (cs : List Char) : Bool :=
  !cs.isEmpty && cs.all pyDigitChar

/-- Start code points of the Unicode category `Nd` (decimal digit) runs,
generated from CPython 3.11 (Unicode 14); each run is ten consecutive code
points carrying decimal values 0..9 in order. -/
def ndRangeStarts : List Nat := [
  0x30, 0x660, 0x6F0, 0x7C0, 0x966, 0x9E6, 0xA66, 0xAE6,
  0xB66, 0xBE6, 0xC66, 0xCE6, 0xD66, 0xDE6, 0xE50, 0xED0,
  0xF20, 0x1040, 0x1090, 0x17E0, 0x1810, 0x1946, 0x19D0, 0x1A80,
  0x1A90, 0x1B50, 0x1BB0, 0x1C40, 0x1C50, 0xA620, 0xA8D0, 0xA900,
  0xA9D0, 0xA9F0, 0xAA50, 0xABF0, 0xFF10, 0x104A0, 0x10D30, 0x11066,
  0x110F0, 0x11136, 0x111D0, 0x112F0, 0x11450, 0x114D0, 0x11650, 0x116C0,
  0x11730, 0x118E0, 0x11950, 0x11C50, 0x11D50, 0x11DA0, 0x16A60, 0x16AC0,
  0x16B50, 0x1D7CE, 0x1D7D8, 0x1D7E2, 0x1D7EC, 0x1D7F6, 0x1E140, 0x1E2F0,
  0x1E950, 0x1FBF0
]

/-- Decimal value of a Unicode `Nd` digit, `none` for any other character:
per character, this is what the regex class `\d` matches and what `int()`
converts. -/
def ndVal (c : Char) : Option Nat :=
  (ndRangeStarts.find? fun s => decide (s ≤ c.toNat ∧ c.toNat ≤ s + 9)).map
    fun s => c.toNat - s

/-- Membership in Unicode category `Nd`: the regex class `\d`. -/
def isNd (c : Char) : Bool :=
  (ndVal c).isSome

/-- Decimal value with default 0 (used only under an `isNd` guard). -/
def ndValD (c : Char) : Nat :=
  (ndVal c).getD 0

/-- Value of Python `int()` on a string of `Nd` digits (any scripts). -/
def digitsValNd (cs : List Char) : Nat :=
  cs.foldl (fun a c => a * 10 + ndValD c) 0

/-- The ASCII regex class `[1-9]`. -/
def asciiNonzero (c : Char) : Bool :=
  decide ('1' ≤ c ∧ c ≤ '9')

/-- Phone validation condition of `Phone.__init__` (`bot_helper.py:18-21`):
`len(value) == 10 and value.isdigit()` (the code raises on the negation). -/
def validPhone (s : String) : Bool :=
  s.length == 10 && pyIsDigit s.data

/-- Model of `Phone.__init__` (`bot_helper.py:16-21`): returns the stored value
(`str(p)` equals the input) or the `ValueError` message. -/
def Phone.mkChecked (s : String) : Except String String :=
  if validPhone s then Except.ok s
  else Except.error "Phone number must be 10 digits long."

/-- Numeric value of a digit string, as Python `int()` on ASCII digits. -/
def digitsVal (cs : List Char) : Nat :=
  cs.foldl (fun a c => a * 10 + (c.toNat - 48)) 0

/-- Split a character list at `'.'` separators, following
`"a.b.c" ↦ ["a","b","c"]` (empty components preserved). -/
def splitDots : List Char → List (List Char)
  | [] => [[]]
  | c :: rest =>
    if c = '.' then [] :: splitDots rest
    else
      match splitDots rest with
      | [] => [[c]]
      | g :: gs => (c :: g) :: gs

/-- CPython `_strptime` day pattern `3[0-1]|[1-2]\d|0[1-9]|[1-9]| [1-9]`
followed by `int()` on the matched group: the bracket classes are ASCII,
`\d` is any Unicode `Nd` digit, and a blank-padded nonzero ASCII digit is
also admitted. -/
def matchDay (cs : List Char) : Option Nat :=
  match cs with
  | [c] => if asciiNonzero c then some (c.toNat - 48) else none
  | [c1, c2] =>
    if c1 = '3' ∧ (c2 = '0' ∨ c2 = '1') then some (30 + (c2.toNat - 48))
    else if (c1 = '1' ∨ c1 = '2') ∧ isNd c2 then
      some ((c1.toNat - 48) * 10 + ndValD c2)
    else if c1 = '0' ∧ asciiNonzero c2 then some (c2.toNat - 48)
    else if c1 = ' ' ∧ asciiNonzero c2 then some (c2.toNat - 48)
    else none
  | _ => none

/-- CPython `_strptime` month pattern `1[0-2]|0[1-9]|[1-9]`: ASCII classes
only (no `\d`), one or two characters. -/
def matchMonth (cs : List Char) : Option Nat :=
  match cs with
  | [c] => if asciiNonzero c then some (c.toNat - 48) else none
  | [c1, c2] =>
    if c1 = '1' ∧ ('0' ≤ c2 ∧ c2 ≤ '2') then some (10 + (c2.toNat - 48))
    else if c1 = '0' ∧ asciiNonzero c2 then some (c2.toNat - 48)
    else none
  | _ => none

/-- CPython `_strptime` year pattern `\d\d\d\d`: exactly four Unicode `Nd`
digits of any scripts, converted by `int()`. -/
def matchYear (cs : List Char) : Option Nat :=
  if cs.length = 4 ∧ cs.all isNd then some (digitsValNd cs) else none

/-- Gregorian leap-year test, as `bot_helper.py:92` / Python `calendar`. -/
def isLeap (y : Nat) : Bool :=
  y % 4 == 0 && (y % 100 != 0 || y % 400 == 0)

/-- Length of a month in the proleptic Gregorian calendar. -/
def daysInMonth (y m : Nat) : Nat :=
  if m = 2 then (if isLeap y then 29 else 28)
  else if m = 4 ∨ m = 6 ∨ m = 9 ∨ m = 11 then 30
  else 31

/-- Days in year `y` before month `m` begins. -/
def daysBeforeMonth (y m : Nat) : Nat :=
  (List.range (m - 1)).foldl (fun acc i => acc + daysInMonth y (i + 1)) 0

/-- A calendar date as Python's `datetime.date` triple. -/
structure Date where
  year : Nat
  month : Nat
  day : Nat
deriving DecidableEq

/-- Validity check of the `datetime` constructor: `MINYEAR ≤ year ≤ MAXYEAR`,
`1 ≤ month ≤ 12`, `1 ≤ day ≤ daysInMonth`. -/
def Date.valid (d : Date) : Bool :=
  1 ≤ d.year && d.year ≤ 9999 && 1 ≤ d.month && d.month ≤ 12 &&
    1 ≤ d.day && d.day ≤ daysInMonth d.year d.month

/-- Python `date.toordinal()`: day number in the proleptic Gregorian calendar
with `0001-01-01 ↦ 1`. -/
def Date.toOrdinal (d : Date) : Nat :=
  365 * (d.year - 1) + (d.year - 1) / 4 - (d.year - 1) / 100 + (d.year - 1) / 400
    + daysBeforeMonth d.year d.month + d.day

/-- Python `date.weekday()`: Monday = 0 .. Sunday = 6. -/
def Date.weekday (d : Date) : Nat :=
  (d.toOrdinal - 1) % 7

/-- Model of `datetime.strptime(value, "%d.%m.%Y").date()`
(`bot_helper.py:27`, `bot_helper.py:103`): field patterns as in CPython
`_strptime`, then the `datetime` constructor's range check. -/
def parseDDMMYYYY (s : String) : Option Date :=
  match splitDots s.data with
  | [ds, ms, ys] =>
    match matchDay ds, matchMonth ms, matchYear ys with
    | some d, some m, some y =>
      if (Date.mk y m d).valid then some (Date.mk y m d) else none
    | _, _, _ => none
  | _ => none

/-- Model of `Birthday.__init__` (`bot_helper.py:23-30`): the raw string is
stored unchanged when it parses, otherwise the `ValueError` message is raised
and nothing is stored. -/
def Birthday.mkChecked (s : String) : Except String String :=
  if (parseDDMMYYYY s).isSome then Except.ok s
  else Except.error "Invalid birthday format. Use DD.MM.YYYY."

/-- A contact record (`bot_helper.py:32-37`): name (the `Name` field accepts
any string), ordered phone list, optional raw birthday string. -/
structure Record where
  name : String
  phones : List String
  birthday : Option String
deriving DecidableEq

/-- `Record.__init__` (`bot_helper.py:34-37`). -/
def Record.init (name : String) : Record :=
  ⟨name, [], none⟩

/-- `Record.add_phone` (`bot_helper.py:39-41`): validates, then appends; on
validation failure the error propagates and the record is unchanged. -/
def Record.add_phone (r : Record) (phone : String) : Except String Record :=
  match Phone.mkChecked phone with
  | Except.ok p => Except.ok { r with phones := r.phones ++ [p] }
  | Except.error e => Except.error e

/-- The loop body of `Record.edit_phone` (`bot_helper.py:49-51`): every stored
phone equal to `old` has its value overwritten with `new` (the loop has no
`break` and performs no validation). -/
def editPhones : List String → String → String → List String
  | [], _, _ => []
  | p :: ps, old, new => (if p = old then new else p) :: editPhones ps old new

/-- `Record.edit_phone` (`bot_helper.py:47-51`). -/
def Record.edit_phone (r : Record) (old new : String) : Record :=
  { r with phones := editPhones r.phones old new }

/-- `Record.add_birthday` (`bot_helper.py:53-55`): validates, then
sets/overwrites the single birthday field. -/
def Record.add_birthday (r : Record) (b : String) : Except String Record :=
  match Birthday.mkChecked b with
  | Except.ok v => Except.ok { r with birthday := some v }
  | Except.error e => Except.error e

/-- The address book (`bot_helper.py:63-66`): a `dict` from name to record,
modelled as an association list in insertion order. -/
structure AddressBook where
  data : List (String × Record)
deriving DecidableEq

/-- Python `dict` assignment `d[k] = v`: replace the value at the first
(unique) matching key in place, otherwise append at the end. -/
def dictInsert : List (String × Record) → String → Record → List (String × Record)
  | [], k, v => [(k, v)]
  | (k0, v0) :: rest, k, v =>
    if k0 = k then (k0, v) :: rest else (k0, v0) :: dictInsert rest k v

/-- Python `dict.get(k)`: first-match lookup. -/
def lookup : List (String × Record) → String → Option Record
  | [], _ => none
  | (k0, v0) :: rest, k => if k0 = k then some v0 else lookup rest k

/-- `AddressBook.add_record` (`bot_helper.py:68-70`):
`self.data[record.name.value] = record`. -/
def AddressBook.add_record (b : AddressBook) (r : Record) : AddressBook :=
  ⟨dictInsert b.data r.name r⟩

/-- `AddressBook.find` (`bot_helper.py:77-79`): `self.data.get(name)`. -/
def AddressBook.find (b : AddressBook) (n : String) : Option Record :=
  lookup b.data n

/-- Weekday names as produced by `strftime("%A")`, indexed by Python
`weekday()` (Monday = 0). -/
def weekdayName : Nat → String
  | 0 => "Monday"
  | 1 => "Tuesday"
  | 2 => "Wednesday"
  | 3 => "Thursday"
  | 4 => "Friday"
  | 5 => "Saturday"
  | _ => "Sunday"

/-- `strftime("%A")` of the date whose ordinal is `o` (for `o ≥ 1`). -/
def strftimeA (o : Int) : String :=
  weekdayName (((o - 1) % 7).toNat)

/-- Ordinal of `monday = today - timedelta(days=today.weekday())`
(`bot_helper.py:89`). -/
def mondayOrdinal (today : Date) : Int :=
  (today.toOrdinal : Int) - (today.weekday : Int)

/-- Bucket computation of `bot_helper.py:107-111`: the weekday name of
`monday + timedelta(days=delta_days)`, overridden to `"Monday"` whenever the
stored birthday date itself falls on Saturday or Sunday. -/
def bucketFor (today bd : Date) : String :=
  if 5 ≤ bd.weekday then "Monday"
  else strftimeA (mondayOrdinal today + ((bd.toOrdinal : Int) - (today.toOrdinal : Int)))

/-- Per-record body of the loop in `get_birthdays_per_week`
(`bot_helper.py:95-116`): skip when no birthday is stored or the stored string
fails to parse (the `except ValueError: pass`); otherwise include the contact
iff `0 <= delta_days < 7` where `delta_days = (birthday_date - today).days`
uses the literally stored year. (A stored empty string is skipped by Python's
`if birthday:` and equally fails to parse here.) -/
def entryFor (today : Date) (r : Record) : Option (String × String) :=
  r.birthday.bind fun bs =>
    (parseDDMMYYYY bs).bind fun bd =>
      if 0 ≤ (bd.toOrdinal : Int) - (today.toOrdinal : Int) ∧
          (bd.toOrdinal : Int) - (today.toOrdinal : Int) < 7 then
        some (bucketFor today bd, r.name)
      else none

/-- `AddressBook.get_birthdays_per_week` (`bot_helper.py:81-118`), with the
ambient `datetime.today()` passed explicitly; the weekday-keyed `defaultdict`
is flattened to (weekday-name, contact-name) pairs in iteration order. -/
def AddressBook.get_birthdays_per_week (b : AddressBook) (today : Date) :
    List (String × String) :=
  (b.data.map Prod.snd).filterMap (entryFor today)

/-- `Bot.add_contact` (`bot_helper.py:128-132`): build a record with one
validated phone and insert it; an invalid phone raises out of the handler
(process terminates, book unchanged). -/
def Bot.add_contact (b : AddressBook) (name phone : String) : AddressBook :=
  match (Record.init name).add_phone phone with
  | Except.ok r => b.add_record r
  | Except.error _ => b

/-- `Bot.change_phone` (`bot_helper.py:134-140`): on a found record, overwrite
(in place) the phones equal to `record.phones[0].value` with `new_phone`;
a missing record prints "Contact not found."; an empty phone list would raise
`IndexError` (process terminates, book unchanged). -/
def Bot.change_phone (b : AddressBook) (name newPhone : String) : AddressBook :=
  match b.find name with
  | none => b
  | some r =>
    match r.phones with
    | [] => b
    | p0 :: _ => ⟨dictInsert b.data name (r.edit_phone p0 newPhone)⟩

/-- `Bot.add_birthday` (`bot_helper.py:149-155`): on a found record, set the
birthday (in place); an invalid birthday raises (process terminates, book
unchanged). -/
def Bot.addBirthdayCmd (b : AddressBook) (name bday : String) : AddressBook :=
  match b.find name with
  | none => b
  | some r =>
    match r.add_birthday bday with
    | Except.ok r2 => ⟨dictInsert b.data name r2⟩
    | Except.error _ => b

/-- The commands of the `Bot.run` loop (`bot_helper.py:182-213`) that can
reach the address book; `query` stands for the non-mutating commands
(`phone`, `show-birthday`, `birthdays`, `all`, `hello`, unrecognized). -/
inductive Cmd where
  | add (name phone : String)
  | change (name newPhone : String)
  | addBirthday (name bday : String)
  | query
deriving DecidableEq

/-- One dispatch step of the command loop. -/
def execCmd (b : AddressBook) : Cmd → AddressBook
  | Cmd.add name phone => Bot.add_contact b name phone
  | Cmd.change name newPhone => Bot.change_phone b name newPhone
  | Cmd.addBirthday name bday => Bot.addBirthdayCmd b name bday
  | Cmd.query => b

/-- The book starts empty (`bot_helper.py:65-66`, `bot_helper.py:125-126`). -/
def emptyBook : AddressBook := ⟨[]⟩

/-- The book state after a sequence of commands from process start. -/
def execCmds (cmds : List Cmd) : AddressBook :=
  cmds.foldl execCmd emptyBook

/-- The birthday-string format the specification describes for claim C7:
two-digit day, two-digit month, four-digit year (decimal digits) separated by
dots, denoting a real calendar date. Stated from the spec's words, to be
compared with the code's `parseDDMMYYYY`. -/
def specStrictDDMMYYYY (s : String) : Bool :=
  match splitDots s.data with
  | [ds, ms, ys] =>
    ds.all Char.isDigit && ds.length == 2 && ms.all Char.isDigit && ms.length == 2 &&
      ys.all Char.isDigit && ys.length == 4 &&
      (Date.mk (digitsVal ys) (digitsVal ms) (digitsVal ds)).valid
  | _ => false

/-! Helper lemmas about `editPhones` (the loop of `Record.edit_phone`). -/

theorem editPhones_length (ps : List String) (old new : String) :
    (editPhones ps old new).length = ps.length := by
  induction ps with
  | nil => rfl
  | cons p ps ih => simp [editPhones, ih]

theorem editPhones_getElem? (ps : List String) (old new : String) (i : Nat) :
    (editPhones ps old new)[i]? = (ps[i]?).map (fun p => if p = old then new else p) := by
  induction ps generalizing i with
  | nil => simp [editPhones]
  | cons p ps ih =>
    cases i with
    | zero => simp [editPhones]
    | succ j => simp [editPhones, ih]

theorem editPhones_of_not_mem {ps : List String} {old : String} (new : String)
    (h : old ∉ ps) : editPhones ps old new = ps := by
  induction ps with
  | nil => rfl
  | cons p ps ih =>
    have hp : ¬p = old := fun hc => h (hc ▸ List.mem_cons_self p ps)
    have hps : old ∉ ps := fun hc => h (List.mem_cons_of_mem p hc)
    simp [editPhones, hp, ih hps]

theorem mem_new_editPhones {ps : List String} {old : String} (new : String)
    (h : old ∈ ps) : new ∈ editPhones ps old new := by
  induction ps with
  | nil => exact absurd h (List.not_mem_nil old)
  | cons p ps ih =>
    rcases List.mem_cons.mp h with hp | hps
    · simp [editPhones, hp.symm]
    · cases hq : decide (p = old) with
      | false =>
        have : ¬p = old := of_decide_eq_false hq
        simpa [editPhones, this] using Or.inr (ih hps)
      | true =>
        have : p = old := of_decide_eq_true hq
        simp [editPhones, this]

theorem editPhones_ne_nil {ps : List String} (old new : String) (h : ps ≠ []) :
    editPhones ps old new ≠ [] := by
  cases ps with
  | nil => exact absurd rfl h
  | cons p ps => simp [editPhones]

/-- C3: the claim states `editPhone(old, new)` validates `new` like `addPhone`
and fails with `InvalidFormat` on a non-10-digit `new`, leaving the list
unchanged. The code (`bot_helper.py:47-51`) performs no validation: editing
the only phone `"0123456789"` to `"abc"` succeeds and stores `"abc"`,
although `"abc"` is not a valid phone. -/
theorem c3_counterexample :
    Record.edit_phone ⟨"Bob", ["0123456789"], none⟩ "0123456789" "abc"
        = ⟨"Bob", ["abc"], none⟩ ∧
      validPhone "abc" = false := by
  constructor
  · rfl
  · decide

/-- C3 (amended): `edit_phone` applies no validation to `new`: for every
record containing a phone equal to `old` and for every string `new`,
validated or not, the edit succeeds (no error is possible) and `new` is
stored in the phone list. -/
theorem c3_edit_no_validation (r : Record) (old new : String)
    (h : old ∈ r.phones) : new ∈ (r.edit_phone old new).phones := by
  unfold Record.edit_phone
  exact mem_new_editPhones new h

/-- Witness for C3 (amended): editing a stored phone to the invalid string
`"abc"` stores `"abc"`. -/
theorem c3_witness :
    "abc" ∈ (Record.edit_phone ⟨"Bob", ["0123456789"], none⟩ "0123456789" "abc").phones :=
  c3_edit_no_validation ⟨"Bob", ["0123456789"], none⟩ "0123456789" "abc" (by decide)

/-- C4: the claim states only the first phone equal to `old` is overwritten
and later duplicates keep their prior value. The loop in `bot_helper.py:49-51`
has no `break`: with two copies of `"1111111111"` stored, editing to
`"2222222222"` overwrites both, so the second copy does not keep its prior
value. -/
theorem c4_counterexample :
    Record.edit_phone ⟨"Ann", ["1111111111", "1111111111"], none⟩
        "1111111111" "2222222222"
      = ⟨"Ann", ["2222222222", "2222222222"], none⟩ ∧
      ("2222222222" : String) ≠ "1111111111" := by
  constructor
  · rfl
  · decide

/-- C4 (amended): `edit_phone(old, new)` overwrites every stored phone equal
to `old` with `new`; phones different from `old` keep their value, and the
length of the phone list is preserved. -/
theorem c4_edit_overwrites_all (r : Record) (old new : String) (i : Nat) :
    (r.edit_phone old new).phones.length = r.phones.length ∧
      (r.edit_phone old new).phones[i]?
        = (r.phones[i]?).map (fun p => if p = old then new else p) := by
  unfold Record.edit_phone
  exact ⟨editPhones_length r.phones old new, editPhones_getElem? r.phones old new i⟩

/-- C8: when no stored phone equals `old`, `edit_phone(old, new)` leaves the
record unchanged, and no error is raised (the function is total). -/
theorem c8_edit_no_match (r : Record) (old new : String)
    (h : old ∉ r.phones) : r.edit_phone old new = r := by
  unfold Record.edit_phone
  rw [editPhones_of_not_mem new h]

/-- Witness for C8: editing an absent phone is the identity. -/
theorem c8_witness :
    Record.edit_phone ⟨"Bob", ["0123456789"], none⟩ "9999999999" "1111111111"
      = ⟨"Bob", ["0123456789"], none⟩ :=
  c8_edit_no_match ⟨"Bob", ["0123456789"], none⟩ "9999999999" "1111111111" (by decide)

/-! Helper lemmas about the dict model (`dictInsert` / `lookup`). -/

theorem lookup_dictInsert_self (l : List (String × Record)) (k : String) (v : Record) :
    lookup (dictInsert l k v) k = some v := by
  induction l with
  | nil => simp [dictInsert, lookup]
  | cons hd tl ih =>
    obtain ⟨k0, v0⟩ := hd
    by_cases h : k0 = k
    · simp [dictInsert, lookup, h]
    · simp [dictInsert, lookup, h, ih]

theorem lookup_dictInsert_other (l : List (String × Record)) (k : String) (v : Record)
    {n : String} (h : n ≠ k) :
    lookup (dictInsert l k v) n = lookup l n := by
  have h' : k ≠ n := Ne.symm h
  induction l with
  | nil => simp [dictInsert, lookup, h']
  | cons hd tl ih =>
    obtain ⟨k0, v0⟩ := hd
    by_cases hk : k0 = k
    · subst hk
      simp [dictInsert, lookup, h']
    · simp [dictInsert, lookup, hk, ih]

theorem dictInsert_keys_of_mem {l : List (String × Record)} {k : String} (v : Record)
    (h : k ∈ l.map Prod.fst) :
    (dictInsert l k v).map Prod.fst = l.map Prod.fst := by
  induction l with
  | nil => simp at h
  | cons hd tl ih =>
    obtain ⟨k0, v0⟩ := hd
    by_cases hk : k0 = k
    · simp [dictInsert, hk]
    · have : k ∈ tl.map Prod.fst := by
        rcases List.mem_cons.mp h with hc | hc
        · exact absurd hc.symm hk
        · exact hc
      simp [dictInsert, hk, ih this]

theorem dictInsert_keys_of_not_mem {l : List (String × Record)} {k : String} (v : Record)
    (h : k ∉ l.map Prod.fst) :
    (dictInsert l k v).map Prod.fst = l.map Prod.fst ++ [k] := by
  induction l with
  | nil => simp [dictInsert]
  | cons hd tl ih =>
    obtain ⟨k0, v0⟩ := hd
    have hk : ¬k0 = k := fun hc => h (by simp [hc])
    have htl : k ∉ tl.map Prod.fst := fun hc => h (by simp [hc])
    simp [dictInsert, hk, ih htl]

theorem mem_dictInsert {l : List (String × Record)} {k : String} {v : Record}
    {p : String × Record} (h : p ∈ dictInsert l k v) : p ∈ l ∨ p.2 = v := by
  induction l with
  | nil =>
    simp [dictInsert] at h
    exact Or.inr (by simp [h])
  | cons hd tl ih =>
    obtain ⟨k0, v0⟩ := hd
    by_cases hk : k0 = k
    · simp [dictInsert, hk] at h
      rcases h with h | h
      · exact Or.inr (by simp [h])
      · exact Or.inl (List.mem_cons_of_mem _ h)
    · simp only [dictInsert, if_neg hk, List.mem_cons] at h
      rcases h with h | h
      · exact Or.inl (by simp [h])
      · rcases ih h with h | h
        · exact Or.inl (List.mem_cons_of_mem _ h)
        · exact Or.inr h

theorem lookup_mem {l : List (String × Record)} {n : String} {r : Record}
    (h : lookup l n = some r) : ∃ k, (k, r) ∈ l := by
  induction l with
  | nil => simp [lookup] at h
  | cons hd tl ih =>
    obtain ⟨k0, v0⟩ := hd
    by_cases hk : k0 = n
    · simp [lookup, hk] at h
      exact ⟨k0, by simp [h]⟩
    · simp [lookup, hk] at h
      obtain ⟨k, hm⟩ := ih h
      exact ⟨k, List.mem_cons_of_mem _ hm⟩

/-- C5: `add_record` (`bot_helper.py:68-70`) is a keyed overwrite: afterwards
the book maps the record's name to exactly that record (last write wins, no
merging), every other name's lookup is unchanged, and distinctness of keys is
preserved, so there is at most one record per name. -/
theorem c5_add_record (b : AddressBook) (r : Record) (n : String)
    (hnd : (b.data.map Prod.fst).Nodup) (hne : n ≠ r.name) :
    (b.add_record r).find r.name = some r ∧
      (b.add_record r).find n = b.find n ∧
      ((b.add_record r).data.map Prod.fst).Nodup := by
  refine ⟨lookup_dictInsert_self b.data r.name r,
          lookup_dictInsert_other b.data r.name r hne, ?_⟩
  by_cases hm : r.name ∈ b.data.map Prod.fst
  · rw [show (b.add_record r).data = dictInsert b.data r.name r from rfl,
        dictInsert_keys_of_mem r hm]
    exact hnd
  · rw [show (b.add_record r).data = dictInsert b.data r.name r from rfl,
        dictInsert_keys_of_not_mem r hm]
    refine List.Nodup.append hnd (List.nodup_singleton r.name) ?_
    intro x hx hs
    have hxr : x = r.name := List.mem_singleton.mp hs
    exact hm (hxr ▸ hx)

/-- Witness for C5: adding a second record named `"Alice"` replaces the first
entirely, leaves the `"Bobby"` lookup unchanged, and keeps keys unique. -/
theorem c5_witness :
    (AddressBook.find
        (AddressBook.add_record ⟨[("Alice", ⟨"Alice", ["1111111111"], none⟩)]⟩
          ⟨"Alice", ["2222222222"], none⟩) "Alice"
      = some ⟨"Alice", ["2222222222"], none⟩) ∧
    (AddressBook.find
        (AddressBook.add_record ⟨[("Alice", ⟨"Alice", ["1111111111"], none⟩)]⟩
          ⟨"Alice", ["2222222222"], none⟩) "Bobby"
      = AddressBook.find ⟨[("Alice", ⟨"Alice", ["1111111111"], none⟩)]⟩ "Bobby") ∧
    (((AddressBook.add_record ⟨[("Alice", ⟨"Alice", ["1111111111"], none⟩)]⟩
        ⟨"Alice", ["2222222222"], none⟩).data.map Prod.fst).Nodup) :=
  c5_add_record ⟨[("Alice", ⟨"Alice", ["1111111111"], none⟩)]⟩
    ⟨"Alice", ["2222222222"], none⟩ "Bobby" (by decide) (by decide)

/-- C9: the claim states record construction and the command handlers reject
or never produce an empty name, making every reachable book key non-empty.
The handlers perform no such check: the reachable state after the single
command `add` with the (stripped) empty name holds a record keyed by `""`. -/
theorem c9_counterexample :
    (execCmds [Cmd.add "" "0123456789"]).find ""
        = some ⟨"", ["0123456789"], none⟩ ∧
      ("" : String).length = 0 := by
  constructor
  · rfl
  · decide

/-- C9 (amended): the `Name` field and the handlers accept any string as a
contact name, including the empty string: `add` with a valid phone stores a
record under exactly the given name, with no name validation at all. -/
theorem c9_name_unvalidated (b : AddressBook) (name phone : String)
    (hv : validPhone phone = true) :
    (Bot.add_contact b name phone).find name = some ⟨name, [phone], none⟩ := by
  unfold Bot.add_contact Record.add_phone Record.init Phone.mkChecked
  rw [if_pos hv]
  simpa using lookup_dictInsert_self b.data name ⟨name, [phone], none⟩

/-- Witness for C9 (amended): an empty name is accepted and stored. -/
theorem c9_witness :
    (Bot.add_contact emptyBook "" "0123456789").find ""
      = some ⟨"", ["0123456789"], none⟩ :=
  c9_name_unvalidated emptyBook "" "0123456789" (by decide)

/-! Phone-list non-emptiness invariant of the command interface (claim C10). -/

/-- Every record stored in the book has a non-empty phone list. -/
def PhonesNonempty (b : AddressBook) : Prop :=
  ∀ p ∈ b.data, p.2.phones ≠ []

theorem phonesNonempty_step {b : AddressBook} (h : PhonesNonempty b) (c : Cmd) :
    PhonesNonempty (execCmd b c) := by
  cases c with
  | add name phone =>
    by_cases hv : validPhone phone = true
    · have hstep : execCmd b (Cmd.add name phone)
          = AddressBook.add_record b ⟨name, [phone], none⟩ := by
        simp [execCmd, Bot.add_contact, Record.add_phone, Record.init,
          Phone.mkChecked, hv]
      rw [hstep]
      intro p hp
      simp only [AddressBook.add_record] at hp
      rcases mem_dictInsert hp with hm | hm
      · exact h p hm
      · simp [hm]
    · have hstep : execCmd b (Cmd.add name phone) = b := by
        simp [execCmd, Bot.add_contact, Record.add_phone, Record.init,
          Phone.mkChecked, hv]
      rw [hstep]
      exact h
  | change name newPhone =>
    cases hf : b.find name with
    | none =>
      have hstep : execCmd b (Cmd.change name newPhone) = b := by
        simp [execCmd, Bot.change_phone, hf]
      rw [hstep]
      exact h
    | some r =>
      cases hps : r.phones with
      | nil =>
        have hstep : execCmd b (Cmd.change name newPhone) = b := by
          simp [execCmd, Bot.change_phone, hf, hps]
        rw [hstep]
        exact h
      | cons p0 rest =>
        have hstep : execCmd b (Cmd.change name newPhone)
            = ⟨dictInsert b.data name (Record.edit_phone r p0 newPhone)⟩ := by
          simp [execCmd, Bot.change_phone, hf, hps]
        rw [hstep]
        intro p hp
        rcases mem_dictInsert hp with hm | hm
        · exact h p hm
        · rw [hm]
          show (Record.edit_phone r p0 newPhone).phones ≠ []
          unfold Record.edit_phone
          exact editPhones_ne_nil p0 newPhone (by rw [hps]; simp)
  | addBirthday name bday =>
    cases hf : b.find name with
    | none =>
      have hstep : execCmd b (Cmd.addBirthday name bday) = b := by
        simp [execCmd, Bot.addBirthdayCmd, hf]
      rw [hstep]
      exact h
    | some r =>
      cases hb : Birthday.mkChecked bday with
      | error e =>
        have hstep : execCmd b (Cmd.addBirthday name bday) = b := by
          simp [execCmd, Bot.addBirthdayCmd, Record.add_birthday, hf, hb]
        rw [hstep]
        exact h
      | ok v =>
        have hstep : execCmd b (Cmd.addBirthday name bday)
            = ⟨dictInsert b.data name { r with birthday := some v }⟩ := by
          simp [execCmd, Bot.addBirthdayCmd, Record.add_birthday, hf, hb]
        rw [hstep]
        intro p hp
        rcases mem_dictInsert hp with hm | hm
        · exact h p hm
        · obtain ⟨k, hk⟩ := lookup_mem hf
          have hr : r.phones ≠ [] := h (k, r) hk
          rw [hm]
          simpa using hr
  | query => exact h

theorem phonesNonempty_foldl (cmds : List Cmd) :
    ∀ b : AddressBook, PhonesNonempty b → PhonesNonempty (cmds.foldl execCmd b) := by
  induction cmds with
  | nil => exact fun b hb => hb
  | cons c cs ih => exact fun b hb => ih (execCmd b c) (phonesNonempty_step hb c)

/-- C10: in every book state reachable through the command interface, a found
record has a non-empty phone list (records are only inserted by `add` after a
successful phone validation, and no command removes phones), so the
`record.phones[0]` access of `show_phone` / `change_phone`
(`bot_helper.py:137`, `bot_helper.py:145`) succeeds for every found record. -/
theorem c10_phones_nonempty (cmds : List Cmd) (n : String) (r : Record)
    (h : (execCmds cmds).find n = some r) :
    r.phones ≠ [] ∧ (r.phones[0]?).isSome = true := by
  have hinv : PhonesNonempty (execCmds cmds) := by
    unfold execCmds
    exact phonesNonempty_foldl cmds emptyBook (fun p hp => by simp [emptyBook] at hp)
  obtain ⟨k, hk⟩ := lookup_mem h
  have hne : r.phones ≠ [] := by simpa using hinv (k, r) hk
  refine ⟨hne, ?_⟩
  cases hps : r.phones with
  | nil => exact absurd hps hne
  | cons p0 rest => simp

/-- Witness for C10: after `add Bob 1234567890`, the found record has a
non-empty phone list and index 0 is accessible. -/
theorem c10_witness :
    (⟨"Bob", ["1234567890"], none⟩ : Record).phones ≠ [] ∧
      ((⟨"Bob", ["1234567890"], none⟩ : Record).phones[0]?).isSome = true :=
  c10_phones_nonempty [Cmd.add "Bob" "1234567890"] "Bob"
    ⟨"Bob", ["1234567890"], none⟩ (by decide)

/-- The code's phone check unfolded: exactly 10 characters, each satisfying
Python's `isdigit()` (non-emptiness in `isdigit` is subsumed by the length). -/
theorem validPhone_iff (s : String) :
    validPhone s = true ↔ s.length = 10 ∧ s.data.all pyDigitChar = true := by
  unfold validPhone pyIsDigit
  simp only [Bool.and_eq_true, beq_iff_eq, Bool.not_eq_true']
  constructor
  · rintro ⟨hlen, _, hdig⟩
    exact ⟨hlen, hdig⟩
  · rintro ⟨hlen, hdig⟩
    have hlen' : s.data.length = 10 := hlen
    refine ⟨hlen, ?_, hdig⟩
    cases hd : s.data with
    | nil =>
      rw [hd] at hlen'
      simp at hlen'
    | cons c cs => simp

/-- C6: the claim states phone construction succeeds iff the input is exactly
10 characters, all of them decimal digits. Python's `str.isdigit()` is also
true of non-decimal digit-property characters: the 10-character string of ten
SUPERSCRIPT TWO characters is accepted by `Phone.__init__`
(`bot_helper.py:19`) although none of its characters is a decimal digit. -/
theorem c6_counterexample :
    Phone.mkChecked "²²²²²²²²²²" = Except.ok "²²²²²²²²²²" ∧
      ("²²²²²²²²²²" : String).length = 10 ∧
      ("²²²²²²²²²²".data.all Char.isDigit) = false := by
  refine ⟨rfl, by decide, by decide⟩

/-- C6 (amended): phone construction (`bot_helper.py:18-21`) succeeds iff the
input has exactly 10 characters, each satisfying Python's `isdigit()` (true
of the decimal digits of every script and of other digit-property characters
such as superscripts), and then the stored (displayed) value is the input
itself; otherwise `add_phone` (`bot_helper.py:39-41`) fails with the
`ValueError` message and the phone list is left unchanged (the error branch
returns no record, so nothing is stored). -/
theorem c6_phone_validation (r : Record) (s : String) :
    ((∃ v, Phone.mkChecked s = Except.ok v ∧ v = s)
        ↔ s.length = 10 ∧ s.data.all pyDigitChar = true) ∧
      r.add_phone s
        = (if s.length = 10 ∧ s.data.all pyDigitChar = true then
            Except.ok { r with phones := r.phones ++ [s] }
          else
            Except.error "Phone number must be 10 digits long.") := by
  by_cases hv : validPhone s = true
  · have hc := (validPhone_iff s).mp hv
    constructor
    · exact ⟨fun _ => hc, fun _ => ⟨s, by simp [Phone.mkChecked, hv], rfl⟩⟩
    · simp [Record.add_phone, Phone.mkChecked, hv, hc]
  · have hc : ¬(s.length = 10 ∧ s.data.all pyDigitChar = true) :=
      fun hcc => hv ((validPhone_iff s).mpr hcc)
    constructor
    · constructor
      · rintro ⟨v, hok, rfl⟩
        simp [Phone.mkChecked, hv] at hok
      · intro hcc
        exact absurd hcc hc
    · have hL : r.add_phone s = Except.error "Phone number must be 10 digits long." := by
        simp [Record.add_phone, Phone.mkChecked, hv]
      rw [hL, if_neg hc]

/-- A string accepted by the code's date parser denotes a real calendar date
(the `datetime` constructor's check is part of the parse). -/
theorem parse_valid {s : String} {dt : Date}
    (h : parseDDMMYYYY s = some dt) : dt.valid = true := by
  unfold parseDDMMYYYY at h
  split at h
  · split at h
    · split at h
      · rename_i hvalid
        cases h
        exact hvalid
      · exact absurd h (by simp)
    · exact absurd h (by simp)
  · exact absurd h (by simp)

/-- C7: the claim states birthday construction succeeds exactly for real
calendar dates written with a 2-digit day, 2-digit month and 4-digit year.
Python's `strptime("%d.%m.%Y")` also accepts single-digit day and month:
`"1.1.2024"` is accepted by the code but is not in the claim's format. -/
theorem c7_counterexample :
    Birthday.mkChecked "1.1.2024" = Except.ok "1.1.2024" ∧
      specStrictDDMMYYYY "1.1.2024" = false := by
  constructor
  · rfl
  · decide

/-- C7 (amended): birthday construction succeeds iff the input parses under
CPython's `%d.%m.%Y`: dot separators; a day matching
`3[0-1]|[1-2]\d|0[1-9]|[1-9]| [1-9]` (bracket classes ASCII, `\d` any
Unicode decimal digit, a single nonzero ASCII digit possibly blank-padded);
a month matching the ASCII-only `1[0-2]|0[1-9]|[1-9]`; a year of exactly
four Unicode decimal digits; the triple denoting a real calendar date with
year ≥ 1 (so impossible dates such as `31.02.2024` and wrong separators
fail); the stored value is the raw input, and every failure is the
`InvalidFormat` (`ValueError`) message, with nothing stored. -/
theorem c7_birthday_validation (s : String) :
    ((∃ v, Birthday.mkChecked s = Except.ok v ∧ v = s)
        ↔ ∃ dt, parseDDMMYYYY s = some dt ∧ dt.valid = true) ∧
      (Birthday.mkChecked s = Except.ok s ∨
        Birthday.mkChecked s = Except.error "Invalid birthday format. Use DD.MM.YYYY.") := by
  cases hp : parseDDMMYYYY s with
  | none =>
    constructor
    · constructor
      · rintro ⟨v, hok, rfl⟩
        simp [Birthday.mkChecked, hp] at hok
      · rintro ⟨dt, hdt, _⟩
        exact absurd hdt (by simp)
    · exact Or.inr (by simp [Birthday.mkChecked, hp])
  | some dt =>
    constructor
    · constructor
      · intro _
        exact ⟨dt, rfl, parse_valid hp⟩
      · intro _
        exact ⟨s, by simp [Birthday.mkChecked, hp], rfl⟩
    · exact Or.inl (by simp [Birthday.mkChecked, hp])

/-- Fidelity checks of the `%d.%m.%Y` model on Unicode-digit inputs, matching
CPython: an Arabic-Indic year and an `Nd` second day digit are accepted,
while a lone non-ASCII day digit and a non-ASCII month digit are rejected
(the single-character day alternative and all month classes are ASCII). -/
theorem parseDDMMYYYY_unicode_checks :
    parseDDMMYYYY "01.01.٢٠٢٤" = some ⟨2024, 1, 1⟩ ∧
      parseDDMMYYYY "1٣.05.2024" = some ⟨2024, 5, 13⟩ ∧
      parseDDMMYYYY "٣.05.2024" = none ∧
      parseDDMMYYYY "01.0٢.2024" = none := by
  refine ⟨by decide, by decide, by decide, by decide⟩

/-- Characterisation of the per-record loop body of `get_birthdays_per_week`:
it yields a (bucket, name) pair exactly when a birthday is stored, the stored
string parses, and the literal stored date is within `[today, today+6]`. -/
theorem entryFor_eq_some {today : Date} {r : Record} {p : String × String} :
    entryFor today r = some p ↔
      ∃ bs bd, r.birthday = some bs ∧ parseDDMMYYYY bs = some bd ∧
        0 ≤ (bd.toOrdinal : Int) - (today.toOrdinal : Int) ∧
        (bd.toOrdinal : Int) - (today.toOrdinal : Int) < 7 ∧
        p = (bucketFor today bd, r.name) := by
  constructor
  · intro h
    unfold entryFor at h
    cases hb : r.birthday with
    | none =>
      rw [hb] at h
      simp at h
    | some bs =>
      rw [hb] at h
      simp only [Option.some_bind] at h
      cases hp : parseDDMMYYYY bs with
      | none =>
        rw [hp] at h
        simp at h
      | some bd =>
        rw [hp] at h
        simp only [Option.some_bind] at h
        by_cases hc : 0 ≤ (bd.toOrdinal : Int) - (today.toOrdinal : Int) ∧
            (bd.toOrdinal : Int) - (today.toOrdinal : Int) < 7
        · rw [if_pos hc] at h
          exact ⟨bs, bd, rfl, hp, hc.1, hc.2, (Option.some.inj h).symm⟩
        · rw [if_neg hc] at h
          exact absurd h (by simp)
  · rintro ⟨bs, bd, hb, hp, h0, h7, rfl⟩
    unfold entryFor
    rw [hb]
    simp only [Option.some_bind]
    rw [hp]
    simp only [Option.some_bind]
    rw [if_pos ⟨h0, h7⟩]

/-- C1: with record names distinct (as they are under the one-record-per-name
dict invariant), a contact appears in some bucket of
`get_birthdays_per_week` iff it has a stored birthday whose string parses
under `%d.%m.%Y` and whose literally stored date (no adjustment to a next
yearly occurrence) satisfies `0 ≤ (storedDate - today).days < 7`; records
with no birthday or an unparseable one are silently skipped (the function is
total — no error value exists). -/
theorem c1_upcoming_membership (b : AddressBook) (today : Date) (r : Record)
    (hmem : r ∈ b.data.map Prod.snd)
    (hnd : ((b.data.map Prod.snd).map Record.name).Nodup) :
    (∃ w, (w, r.name) ∈ b.get_birthdays_per_week today) ↔
      ∃ bs bd, r.birthday = some bs ∧ parseDDMMYYYY bs = some bd ∧
        0 ≤ (bd.toOrdinal : Int) - (today.toOrdinal : Int) ∧
        (bd.toOrdinal : Int) - (today.toOrdinal : Int) < 7 := by
  unfold AddressBook.get_birthdays_per_week
  constructor
  · rintro ⟨w, hw⟩
    rw [List.mem_filterMap] at hw
    obtain ⟨r', hr', hf⟩ := hw
    obtain ⟨bs, bd, hb, hp, h0, h7, hpair⟩ := entryFor_eq_some.mp hf
    have hname : r'.name = r.name := (congrArg Prod.snd hpair).symm
    have heq : r' = r := List.inj_on_of_nodup_map hnd hr' hmem hname
    subst heq
    exact ⟨bs, bd, hb, hp, h0, h7⟩
  · rintro ⟨bs, bd, hb, hp, h0, h7⟩
    refine ⟨bucketFor today bd, ?_⟩
    rw [List.mem_filterMap]
    exact ⟨r, hmem, entryFor_eq_some.mpr ⟨bs, bd, hb, hp, h0, h7, rfl⟩⟩

/-- Shared concrete book: one contact with a stored birthday on Saturday
2024-03-16, five days after Monday 2024-03-11. -/
def bookBob : AddressBook :=
  ⟨[("Bob", ⟨"Bob", ["1234567890"], some "16.03.2024"⟩)]⟩

/-- Witness for C1 at a concrete book and date: both sides of the
characterisation hold for Bob. -/
theorem c1_witness :
    (∃ w, (w, (⟨"Bob", ["1234567890"], some "16.03.2024"⟩ : Record).name)
        ∈ bookBob.get_birthdays_per_week ⟨2024, 3, 11⟩) ↔
      ∃ bs bd,
        (⟨"Bob", ["1234567890"], some "16.03.2024"⟩ : Record).birthday = some bs ∧
        parseDDMMYYYY bs = some bd ∧
        0 ≤ (bd.toOrdinal : Int) - (((⟨2024, 3, 11⟩ : Date).toOrdinal : Int)) ∧
        (bd.toOrdinal : Int) - (((⟨2024, 3, 11⟩ : Date).toOrdinal : Int)) < 7 :=
  c1_upcoming_membership bookBob ⟨2024, 3, 11⟩
    ⟨"Bob", ["1234567890"], some "16.03.2024"⟩ (by decide) (by decide)

/-- C2: every contact included in the result is placed under the bucket
computed by `bucketFor`: the `strftime("%A")` weekday name of
`mondayOfCurrentWeek + delta_days` (`bot_helper.py:107`), except that a
stored birthday date falling on Saturday or Sunday (`weekday() >= 5`) is
always bucketed under `"Monday"` regardless of the computed weekday
(`bot_helper.py:110-111`). -/
theorem c2_bucket (b : AddressBook) (today : Date) (r : Record) (bs : String)
    (bd : Date) (hmem : r ∈ b.data.map Prod.snd) (hb : r.birthday = some bs)
    (hp : parseDDMMYYYY bs = some bd)
    (h0 : 0 ≤ (bd.toOrdinal : Int) - (today.toOrdinal : Int))
    (h7 : (bd.toOrdinal : Int) - (today.toOrdinal : Int) < 7) :
    (bucketFor today bd, r.name) ∈ b.get_birthdays_per_week today ∧
      (5 ≤ bd.weekday → bucketFor today bd = "Monday") ∧
      (bd.weekday < 5 →
        bucketFor today bd
          = strftimeA (mondayOrdinal today
              + ((bd.toOrdinal : Int) - (today.toOrdinal : Int)))) := by
  refine ⟨?_, ?_, ?_⟩
  · unfold AddressBook.get_birthdays_per_week
    rw [List.mem_filterMap]
    exact ⟨r, hmem, entryFor_eq_some.mpr ⟨bs, bd, hb, hp, h0, h7, rfl⟩⟩
  · intro hw
    unfold bucketFor
    rw [if_pos hw]
  · intro hw
    unfold bucketFor
    rw [if_neg (by omega)]

/-- Witness for C2 at a concrete book and date: Bob's Saturday birthday lies
in the window and is bucketed under `"Monday"`. -/
theorem c2_witness :
    ((bucketFor ⟨2024, 3, 11⟩ ⟨2024, 3, 16⟩,
        (⟨"Bob", ["1234567890"], some "16.03.2024"⟩ : Record).name)
      ∈ bookBob.get_birthdays_per_week ⟨2024, 3, 11⟩) ∧
      (5 ≤ (⟨2024, 3, 16⟩ : Date).weekday →
        bucketFor ⟨2024, 3, 11⟩ ⟨2024, 3, 16⟩ = "Monday") ∧
      ((⟨2024, 3, 16⟩ : Date).weekday < 5 →
        bucketFor ⟨2024, 3, 11⟩ ⟨2024, 3, 16⟩
          = strftimeA (mondayOrdinal ⟨2024, 3, 11⟩
              + (((⟨2024, 3, 16⟩ : Date).toOrdinal : Int)
                  - ((⟨2024, 3, 11⟩ : Date).toOrdinal : Int)))) :=
  c2_bucket bookBob ⟨2024, 3, 11⟩ ⟨"Bob", ["1234567890"], some "16.03.2024"⟩
    "16.03.2024" ⟨2024, 3, 16⟩ (by decide) rfl (by decide) (by decide) (by decide)

end BotHelper
